import Mathlib

/-!
Verification of the RBAC core of `rbac-gatekeeper`.

The database is embedded as lists of rows (tables `users`, `roles`,
`permissions`, `user_roles`, `role_permissions`); SQL joins become list
lookups.  Timestamp columns (`created_at`, `updated_at`, `assigned_at`) and
`description` columns are omitted: no operation treated here reads them.
Per migration `003_create_permissions_table.ts`, the `permissions` table has
no `is_active` column, so the `Permission` row type carries no active flag.
-/

namespace RBAC

/-- Row of the `users` table (migration 004): the `password` field stores the
bcrypt hash. -/
structure User where
  id : String
  username : String
  email : String
  password : String
  isActive : Bool
  deriving Repr, DecidableEq

/-- Row of the `roles` table. -/
structure Role where
  id : String
  name : String
  isActive : Bool
  deriving Repr, DecidableEq

/-- Row of the `permissions` table (migration 003): columns `id`, `name`,
`resource`, `action`; there is no `is_active` column. -/
structure Permission where
  id : String
  name : String
  resource : String
  action : String
  deriving Repr, DecidableEq

/-- Row of the `user_roles` junction table (unique on `(user_id, role_id)`). -/
structure UserRole where
  userId : String
  roleId : String
  assignedBy : String
  deriving Repr, DecidableEq

/-- Row of the `role_permissions` junction table (unique on
`(role_id, permission_id)` per migration 005). -/
structure RolePermission where
  roleId : String
  permissionId : String
  assignedBy : String
  deriving Repr, DecidableEq

/-- The database state: one list of rows per table. -/
structure DB where
  users : List User
  roles : List Role
  permissions : List Permission
  userRoles : List UserRole
  rolePermissions : List RolePermission
  deriving Repr, DecidableEq

/-- The `PermissionCheck` request structure from `types.ts`. -/
structure PermissionCheck where
  resource : String
  action : String
  deriving Repr, DecidableEq

/-- `UserRoleRepository.getUserRoles`: SQL
`select r.* from user_roles ur join roles r on ur.role_id = r.id
where ur.user_id = ? and r.is_active = true`.
Filter the edges on `user_id`, join each edge to its role row by id, keep
only active roles. -/
def UserRoleRepository.getUserRoles (db : DB) (userId : String) : List Role :=
  (((db.userRoles.filter (fun ur => ur.userId == userId)).filterMap
      (fun ur => db.roles.find? (fun r => r.id == ur.roleId))).filter
    (fun r => r.isActive))

/-- `UserRoleRepository.hasRole`: existence check for an edge of `userId`
joined to an active role named `roleName`. -/
def UserRoleRepository.hasRole (db : DB) (userId roleName : String) : Bool :=
  db.userRoles.any (fun ur =>
    ur.userId == userId &&
      db.roles.any (fun r => r.id == ur.roleId && r.name == roleName && r.isActive))

/-- `RolePermissionRepository.getRolePermissions`: SQL
`select p.* from role_permissions rp join permissions p on rp.permission_id = p.id
where rp.role_id = ?`.  The query has no active filter (the joined
`permissions` table has no `is_active` column). -/
def RolePermissionRepository.getRolePermissions (db : DB) (roleId : String) :
    List Permission :=
  (db.rolePermissions.filter (fun rp => rp.roleId == roleId)).filterMap
    (fun rp => db.permissions.find? (fun p => p.id == rp.permissionId))

/-- Junction-level `RolePermissionRepository.hasPermission`: existence check for
an edge of `roleId` joined to a permission named `permissionName` (again no
active filter exists on the permission side). -/
def RolePermissionRepository.hasPermission (db : DB) (roleId permissionName : String) :
    Bool :=
  db.rolePermissions.any (fun rp =>
    rp.roleId == roleId &&
      db.permissions.any (fun p => p.id == rp.permissionId && p.name == permissionName))

/-- `RolePermissionRepository.assignPermission`: a single-row insert into
`role_permissions`.  The unique constraint on `(role_id, permission_id)` makes
the insert throw on a duplicate edge; the method catches the error and returns
`false`, leaving the table unchanged.  On success it returns `true` with the
new edge appended. -/
def RolePermissionRepository.assignPermission (db : DB)
    (roleId permissionId assignedBy : String) : Bool × DB :=
  if db.rolePermissions.any
      (fun rp => rp.roleId == roleId && rp.permissionId == permissionId) then
    (false, db)
  else
    (true, { db with
      rolePermissions := db.rolePermissions ++ [⟨roleId, permissionId, assignedBy⟩] })

/-- `RBACService.assignPermissionToRole`: awaits the repository call inside a
try/catch and returns `true`; the repository never throws (it catches
internally and signals failure through its boolean result, which the service
discards), so the catch branch returning `false` is unreachable. -/
def RBACService.assignPermissionToRole (db : DB)
    (roleId permissionId assignedBy : String) : Bool × DB :=
  let r := RolePermissionRepository.assignPermission db roleId permissionId assignedBy
  (true, r.2)

/-- Recursion behind `dedupById`: keep a row exactly when its id was not seen
among earlier rows, threading the set of already-seen ids. -/
def dedupByIdAux (seen : List String) : List Permission → List Permission
  | [] => []
  | p :: rest =>
    if seen.contains p.id then dedupByIdAux seen rest
    else p :: dedupByIdAux (p.id :: seen) rest

/-- Duplicate removal of `RBACService.getUserPermissions`: the JS
`filter((permission, index, self) => index === self.findIndex(p => p.id === permission.id))`
keeps exactly the elements whose id did not occur earlier in the list, in
order — computed here by threading the seen ids. -/
def dedupById (ps : List Permission) : List Permission :=
  dedupByIdAux [] ps

/-- `RBACService.getUserPermissions`: fetch the user's (active) roles, append
each role's permission list, then remove duplicates by permission id keeping
the first occurrence. -/
def RBACService.getUserPermissions (db : DB) (userId : String) : List Permission :=
  dedupById (((UserRoleRepository.getUserRoles db userId).map
    (fun role => RolePermissionRepository.getRolePermissions db role.id)).flatten)

/-- `RBACService.hasPermission`: exact case-sensitive match of resource and
action inside the effective permission set. -/
def RBACService.hasPermission (db : DB) (userId : String) (check : PermissionCheck) :
    Bool :=
  (RBACService.getUserPermissions db userId).any
    (fun p => p.resource == check.resource && p.action == check.action)

/-- `RBACService.hasRole` delegates to the junction-level check. -/
def RBACService.hasRole (db : DB) (userId roleName : String) : Bool :=
  UserRoleRepository.hasRole db userId roleName

/-- The JWT payload claims of `types.ts` (`iat` and `exp` are added at signing
time and kept separate below). -/
structure JWTClaims where
  userId : String
  username : String
  email : String
  roles : List String
  permissions : List String
  deriving Repr, DecidableEq

/-- Modelled from the spec: the external `jsonwebtoken` library's signature.
An idealized message-authentication code: the signature of a payload under a
secret is the pair of both, so two signatures agree exactly when secret and
signed content agree (an ideal unforgeable MAC). -/
def jwtSig (secret : String) (claims : JWTClaims) (iat exp : Nat) :
    String × JWTClaims × Nat × Nat :=
  (secret, claims, iat, exp)

/-- A structurally well-formed signed token: embedded claims, issued-at,
expires-at, and the signature over all of them. -/
structure SignedToken where
  claims : JWTClaims
  iat : Nat
  exp : Nat
  sig : String × JWTClaims × Nat × Nat
  deriving Repr, DecidableEq

/-- A token wire value: either a string that does not parse as a signed token,
or a structurally well-formed signed token. -/
inductive Token where
  | malformed (raw : String)
  | signed (t : SignedToken)
  deriving Repr, DecidableEq

/-- Failure modes of the external `jsonwebtoken` verify: malformed structure,
signature mismatch, or expiry. -/
inductive JwtError where
  | malformed
  | badSignature
  | expired
  deriving Repr, DecidableEq

/-- Modelled from the spec: `jsonwebtoken.sign` with option `expiresIn`.
Embeds the claims, stamps `iat` with the current time and `exp` with
`now + ttl`, and signs the whole payload with the secret. -/
def jwtSign (secret : String) (ttl now : Nat) (claims : JWTClaims) : Token :=
  .signed ⟨claims, now, now + ttl, jwtSig secret claims now (now + ttl)⟩

/-- Modelled from the spec: `jsonwebtoken.verify`.  Throws (here: returns
`Except.error`) on a malformed token, a signature that does not match the
recomputed signature under the given secret, or an elapsed TTL; otherwise
yields the embedded payload. -/
def jwtVerify (secret : String) (now : Nat) (t : Token) :
    Except JwtError (JWTClaims × Nat × Nat) :=
  match t with
  | .malformed _ => .error .malformed
  | .signed st =>
    if st.sig ≠ jwtSig secret st.claims st.iat st.exp then .error .badSignature
    else if st.exp ≤ now then .error .expired
    else .ok (st.claims, st.iat, st.exp)

/-- The `jwt` section of `RBACConfig`: signing secret and fixed TTL. -/
structure JwtConfig where
  secret : String
  expiresIn : Nat
  deriving Repr, DecidableEq

/-- `RBACService.generateToken`: sign the payload with the configured secret
and TTL. -/
def RBACService.generateToken (cfg : JwtConfig) (now : Nat) (claims : JWTClaims) :
    Token :=
  jwtSign cfg.secret cfg.expiresIn now claims

/-- `RBACService.verifyToken`: calls the library verify inside a try/catch;
every thrown error becomes `none`, a valid token yields the decoded payload. -/
def RBACService.verifyToken (cfg : JwtConfig) (now : Nat) (t : Token) :
    Option (JWTClaims × Nat × Nat) :=
  match jwtVerify cfg.secret now t with
  | .ok p => some p
  | .error _ => none

/-- `UserRepository.findByUsername`: SQL
`select * from users where username = ? limit 1`, returning the mapped user
row or null when no row matches.  The `username` column is unique, so the
first match is the only match. -/
def UserRepository.findByUsername (db : DB) (username : String) : Option User :=
  db.users.find? (fun u => u.username == username)

/-- The user record with the credential hash stripped, as returned inside
`AuthResult`. -/
structure PublicUser where
  id : String
  username : String
  email : String
  isActive : Bool
  deriving Repr, DecidableEq

/-- `AuthResult` of `types.ts`: sanitized user, token, roles, permissions. -/
structure AuthResult where
  user : PublicUser
  token : Token
  roles : List Role
  permissions : List Permission
  deriving Repr, DecidableEq

/-- `RBACService.authenticateUser`.  `compare` stands for the external
`bcrypt.compare (plaintext, storedHash)`.  Returns `null` when the username is
unknown or the account inactive, `null` again when the password comparison
fails, and otherwise assembles roles, permissions, token and sanitized user. -/
def RBACService.authenticateUser (compare : String → String → Bool)
    (cfg : JwtConfig) (now : Nat) (db : DB) (username password : String) :
    Option AuthResult :=
  match UserRepository.findByUsername db username with
  | none => none
  | some user =>
    if !user.isActive then none
    else if !(compare password user.password) then none
    else
      let roles := UserRoleRepository.getUserRoles db user.id
      let permissions := RBACService.getUserPermissions db user.id
      some
        { user := ⟨user.id, user.username, user.email, user.isActive⟩
          token := RBACService.generateToken cfg now
            ⟨user.id, user.username, user.email,
              roles.map Role.name, permissions.map Permission.name⟩
          roles := roles
          permissions := permissions }

/-- Outcome of a gate decision: `next()` was called (allow), a 401 response
(no authenticated identity), or a 403 response (identity present, grant
missing).  The underlying checks in this model are pure and total, so the
catch branches of the middleware (500 responses) are unreachable and carry no
constructor. -/
inductive GateOutcome where
  | allow
  | unauthenticated
  | forbidden
  deriving Repr, DecidableEq

/-- `AuthMiddleware.requireRole` (live mode): 401 without `req.user`, then a
live `rbacService.hasRole` query on the identity's `userId`. -/
def AuthMiddleware.requireRole (db : DB) (roleName : String)
    (user : Option JWTClaims) : GateOutcome :=
  match user with
  | none => .unauthenticated
  | some u => if RBACService.hasRole db u.userId roleName then .allow else .forbidden

/-- `AuthMiddleware.requirePermission` (live mode): 401 without `req.user`,
then a live `rbacService.hasPermission` query on the identity's `userId`. -/
def AuthMiddleware.requirePermission (db : DB) (check : PermissionCheck)
    (user : Option JWTClaims) : GateOutcome :=
  match user with
  | none => .unauthenticated
  | some u => if RBACService.hasPermission db u.userId check then .allow else .forbidden

/-- `AuthMiddleware.requireAnyRole` (live mode): one live `hasRole` query per
name, pass when some query succeeds. -/
def AuthMiddleware.requireAnyRole (db : DB) (roleNames : List String)
    (user : Option JWTClaims) : GateOutcome :=
  match user with
  | none => .unauthenticated
  | some u =>
    if (roleNames.map (fun roleName => RBACService.hasRole db u.userId roleName)).any
        (fun b => b) then .allow
    else .forbidden

/-- `AuthMiddleware.requireAnyPermission` (live mode): one live
`hasPermission` query per check, pass when some query succeeds. -/
def AuthMiddleware.requireAnyPermission (db : DB) (checks : List PermissionCheck)
    (user : Option JWTClaims) : GateOutcome :=
  match user with
  | none => .unauthenticated
  | some u =>
    if (checks.map (fun check => RBACService.hasPermission db u.userId check)).any
        (fun b => b) then .allow
    else .forbidden

/-- Permission-name match of the snapshot-mode middleware: the embedded
permission name must equal `resource:action` or the legacy `resource.action`
form. -/
def permMatches (check : PermissionCheck) (permission : String) : Bool :=
  permission == check.resource ++ ":" ++ check.action ||
    permission == check.resource ++ "." ++ check.action

/-- `RBACMiddleware.requireRole` (snapshot mode): membership test on the
token-embedded role names. -/
def RBACMiddleware.requireRole (roleName : String) (user : Option JWTClaims) :
    GateOutcome :=
  match user with
  | none => .unauthenticated
  | some u => if u.roles.contains roleName then .allow else .forbidden

/-- `RBACMiddleware.requirePermission` (snapshot mode): match against the
token-embedded permission names. -/
def RBACMiddleware.requirePermission (check : PermissionCheck)
    (user : Option JWTClaims) : GateOutcome :=
  match user with
  | none => .unauthenticated
  | some u => if u.permissions.any (permMatches check) then .allow else .forbidden

/-- `RBACMiddleware.requireAnyRole` (snapshot mode). -/
def RBACMiddleware.requireAnyRole (roleNames : List String)
    (user : Option JWTClaims) : GateOutcome :=
  match user with
  | none => .unauthenticated
  | some u =>
    if roleNames.any (fun roleName => u.roles.contains roleName) then .allow
    else .forbidden

/-- `RBACMiddleware.requireAnyPermission` (snapshot mode). -/
def RBACMiddleware.requireAnyPermission (checks : List PermissionCheck)
    (user : Option JWTClaims) : GateOutcome :=
  match user with
  | none => .unauthenticated
  | some u =>
    if checks.any (fun check => u.permissions.any (permMatches check)) then .allow
    else .forbidden

/-- `RBACMiddleware.requireAdminOrPermission` (snapshot mode): deny iff the
identity is not admin and holds no matching permission. -/
def RBACMiddleware.requireAdminOrPermission (check : PermissionCheck)
    (user : Option JWTClaims) : GateOutcome :=
  match user with
  | none => .unauthenticated
  | some u =>
    let isAdmin := u.roles.contains "admin"
    let hasPerm := u.permissions.any (permMatches check)
    if !isAdmin && !hasPerm then .forbidden else .allow

/-- Concrete permission row used for evaluation. -/
def permUsersRead : Permission := ⟨"perm1", "users:read", "users", "read"⟩

/-- Concrete permission row reachable only through an inactive role below. -/
def permContentDelete : Permission := ⟨"perm2", "content:delete", "content", "delete"⟩

/-- Concrete active role. -/
def adminRole : Role := ⟨"role-admin", "admin", true⟩

/-- Concrete inactive role. -/
def ghostRole : Role := ⟨"role-ghost", "ghost", false⟩

/-- Concrete active user; the stored credential models a hash of `pw`. -/
def alice : User := ⟨"user-alice", "alice", "alice@example.com", "hash:pw", true⟩

/-- Concrete inactive user. -/
def bob : User := ⟨"user-bob", "bob", "bob@example.com", "hash:pw", false⟩

/-- Concrete database: alice holds the active `admin` role (granting
`users:read`) and the inactive `ghost` role (granting `content:delete`). -/
def sampleDb : DB :=
  { users := [alice, bob]
    roles := [adminRole, ghostRole]
    permissions := [permUsersRead, permContentDelete]
    userRoles := [⟨"user-alice", "role-admin", "user-alice"⟩,
                  ⟨"user-alice", "role-ghost", "user-alice"⟩]
    rolePermissions := [⟨"role-admin", "perm1", "user-alice"⟩,
                        ⟨"role-ghost", "perm2", "user-alice"⟩] }

/-- Concrete model of `bcrypt.compare`: the plaintext matches a stored hash
exactly when hashing the plaintext reproduces the stored value. -/
def sampleCompare (plain storedHash : String) : Bool :=
  storedHash == "hash:" ++ plain

/-- Concrete JWT configuration with a 10-unit TTL. -/
def sampleJwtConfig : JwtConfig := ⟨"test-secret-key", 10⟩

/-- Concrete token payload claims. -/
def sampleClaims : JWTClaims :=
  ⟨"user-alice", "alice", "alice@example.com", ["admin"], ["users:read"]⟩

/-- Concrete identity whose token snapshot carries the admin role and no
permission. -/
def adminIdentity : JWTClaims := ⟨"user-alice", "alice", "alice@example.com", ["admin"], []⟩

/-- Concrete non-admin identity holding exactly the `sensitive:read`
permission. -/
def readerIdentity : JWTClaims :=
  ⟨"user-bob", "bob", "bob@example.com", ["user"], ["sensitive:read"]⟩

/-- Concrete non-admin identity holding neither admin nor the permission. -/
def plainIdentity : JWTClaims := ⟨"user-carol", "carol", "carol@example.com", ["user"], []⟩

/-- Concrete identity with alice's userId but an empty token snapshot of roles
and permissions. -/
def snapshotIdentity : JWTClaims := ⟨"user-alice", "alice", "alice@example.com", [], []⟩

/-- Concrete token signed under a different secret than `sampleJwtConfig`. -/
def tamperedToken : SignedToken :=
  ⟨sampleClaims, 0, 10, jwtSig "other-secret" sampleClaims 0 10⟩

/-- Concrete token correctly signed under `sampleJwtConfig`, issued at 0 with
expiry 10. -/
def freshToken : SignedToken :=
  ⟨sampleClaims, 0, 10, jwtSig "test-secret-key" sampleClaims 0 10⟩

/-- The auxiliary deduplication keeps a subsequence of its input. -/
theorem dedupByIdAux_sublist (seen : List String) (ps : List Permission) :
    (dedupByIdAux seen ps).Sublist ps := by
  induction ps generalizing seen with
  | nil => simp [dedupByIdAux]
  | cons p rest ih =>
    rw [dedupByIdAux]
    by_cases h : seen.contains p.id
    · simp only [h, if_true]
      exact (ih seen).cons p
    · simp only [h, if_false]
      exact (ih (p.id :: seen)).cons₂ p

/-- The deduplication keeps a subsequence of its input, so first-seen order is
preserved. -/
theorem dedupById_sublist (ps : List Permission) : (dedupById ps).Sublist ps :=
  dedupByIdAux_sublist [] ps

/-- No id kept by the auxiliary deduplication was already seen. -/
theorem dedupByIdAux_not_seen {seen : List String} {ps : List Permission}
    {q : Permission} (h : q ∈ dedupByIdAux seen ps) : q.id ∉ seen := by
  induction ps generalizing seen with
  | nil => simp [dedupByIdAux] at h
  | cons p rest ih =>
    rw [dedupByIdAux] at h
    by_cases hc : seen.contains p.id
    · simp only [hc, if_true] at h
      exact ih h
    · simp only [hc, if_false] at h
      rcases List.mem_cons.mp h with rfl | hmem
      · simpa using hc
      · intro hseen
        exact ih hmem (List.mem_cons_of_mem _ hseen)

/-- Every id occurring in the input and not yet seen survives the auxiliary
deduplication through some representative. -/
theorem dedupByIdAux_covers {p : Permission} (seen : List String)
    (ps : List Permission) (h : p ∈ ps) (hseen : p.id ∉ seen) :
    ∃ q ∈ dedupByIdAux seen ps, q.id = p.id := by
  induction ps generalizing seen with
  | nil => cases h
  | cons x rest ih =>
    rw [dedupByIdAux]
    by_cases hc : seen.contains x.id
    · simp only [hc, if_true]
      rcases List.mem_cons.mp h with rfl | hmem
      · exact absurd (by simpa using hc) hseen
      · exact ih seen hmem hseen
    · simp only [hc, if_false]
      rcases List.mem_cons.mp h with rfl | hmem
      · exact ⟨p, List.mem_cons_self _ _, rfl⟩
      · by_cases hid : p.id = x.id
        · exact ⟨x, List.mem_cons_self _ _, hid.symm⟩
        · have hseen2 : p.id ∉ x.id :: seen := by
            intro hmem2
            rcases List.mem_cons.mp hmem2 with h2 | h2
            · exact hid h2
            · exact hseen h2
          obtain ⟨q, hq, hqid⟩ := ih (x.id :: seen) hmem hseen2
          exact ⟨q, List.mem_cons_of_mem _ hq, hqid⟩

/-- Every id occurring in the input survives deduplication through some
representative. -/
theorem dedupById_covers {p : Permission} (ps : List Permission) (h : p ∈ ps) :
    ∃ q ∈ dedupById ps, q.id = p.id :=
  dedupByIdAux_covers [] ps h (by simp)

/-- After the auxiliary deduplication all ids are pairwise distinct. -/
theorem dedupByIdAux_pairwise (seen : List String) (ps : List Permission) :
    (dedupByIdAux seen ps).Pairwise (fun p q => p.id ≠ q.id) := by
  induction ps generalizing seen with
  | nil => simp [dedupByIdAux]
  | cons p rest ih =>
    rw [dedupByIdAux]
    by_cases hc : seen.contains p.id
    · simp only [hc, if_true]
      exact ih seen
    · simp only [hc, if_false]
      refine List.Pairwise.cons (fun q hq => ?_) (ih (p.id :: seen))
      have := dedupByIdAux_not_seen hq
      intro hpq
      exact this (hpq ▸ List.mem_cons_self _ _)

/-- After deduplication all ids are pairwise distinct. -/
theorem dedupById_pairwise (ps : List Permission) :
    (dedupById ps).Pairwise (fun p q => p.id ≠ q.id) :=
  dedupByIdAux_pairwise [] ps

/-- Every role visible through `getUserRoles` is active. -/
theorem getUserRoles_active {db : DB} {userId : String} {r : Role}
    (h : r ∈ UserRoleRepository.getUserRoles db userId) : r.isActive = true :=
  List.of_mem_filter h

/-- Every permission visible through `getRolePermissions` is a permission row
joined from an assignment edge of the given role. -/
theorem getRolePermissions_mem {db : DB} {roleId : String} {p : Permission}
    (h : p ∈ RolePermissionRepository.getRolePermissions db roleId) :
    ∃ rp ∈ db.rolePermissions, rp.roleId = roleId ∧ p ∈ db.permissions ∧
      p.id = rp.permissionId := by
  unfold RolePermissionRepository.getRolePermissions at h
  obtain ⟨rp, hrp, hfind⟩ := List.mem_filterMap.mp h
  obtain ⟨hmem, hrole⟩ := List.mem_filter.mp hrp
  refine ⟨rp, hmem, by simpa using hrole, List.mem_of_find?_eq_some hfind, ?_⟩
  have := List.find?_some hfind
  simpa using this

/-- C1: `getUserPermissions(U)` is exactly the deduplicated union of
`getRolePermissions(Ri)` over the user's active roles: it equals the
first-occurrence deduplication of the concatenated per-role lists, carries
pairwise distinct permission ids, is a subsequence of the concatenation (so
first-seen order is preserved), covers every granted permission id, and each
returned permission is reachable through an active role — hence a permission
reachable only through an inactive role is absent. -/
theorem getUserPermissions_spec (db : DB) (userId : String) :
    RBACService.getUserPermissions db userId =
      dedupById (((UserRoleRepository.getUserRoles db userId).map
        (fun role => RolePermissionRepository.getRolePermissions db role.id)).flatten) ∧
    (RBACService.getUserPermissions db userId).Pairwise (fun p q => p.id ≠ q.id) ∧
    (RBACService.getUserPermissions db userId).Sublist
      (((UserRoleRepository.getUserRoles db userId).map
        (fun role => RolePermissionRepository.getRolePermissions db role.id)).flatten) ∧
    (∀ p ∈ ((UserRoleRepository.getUserRoles db userId).map
        (fun role => RolePermissionRepository.getRolePermissions db role.id)).flatten,
      ∃ q ∈ RBACService.getUserPermissions db userId, q.id = p.id) ∧
    (∀ p ∈ RBACService.getUserPermissions db userId,
      ∃ r ∈ UserRoleRepository.getUserRoles db userId,
        r.isActive = true ∧ p ∈ RolePermissionRepository.getRolePermissions db r.id) := by
  refine ⟨rfl, dedupById_pairwise _, dedupById_sublist _,
    fun p hp => dedupById_covers _ hp, ?_⟩
  intro p hp
  have hj := (dedupById_sublist _).subset hp
  obtain ⟨l, hl, hpl⟩ := List.mem_flatten.mp hj
  obtain ⟨r, hr, rfl⟩ := List.mem_map.mp hl
  exact ⟨r, hr, getUserRoles_active hr, hpl⟩

/-- Witness for C1: in the concrete database, alice's effective set contains
`users:read` (granted by the active admin role), excludes `content:delete`
(reachable only through the inactive ghost role), and the theorem instantiated
there produces the active role behind `users:read`. -/
theorem getUserPermissions_spec_witness :
    RBACService.getUserPermissions sampleDb "user-alice" = [permUsersRead] ∧
    permContentDelete ∉ RBACService.getUserPermissions sampleDb "user-alice" ∧
    ∃ r ∈ UserRoleRepository.getUserRoles sampleDb "user-alice",
      r.isActive = true ∧
        permUsersRead ∈ RolePermissionRepository.getRolePermissions sampleDb r.id :=
  ⟨by decide, by decide,
    (getUserPermissions_spec sampleDb "user-alice").2.2.2.2 permUsersRead (by decide)⟩

/-- C2 (evaluation at the failing input): the edge (role-admin, perm1) is
already present in the concrete database.  A second assignment of the same
edge leaves the graph unchanged, and the repository layer signals the failure
with `false`; the service layer however discards that signal and reports
success (`true`), so no Conflict ever reaches a caller. -/
theorem assignPermission_duplicate_eval :
    RolePermissionRepository.assignPermission sampleDb "role-admin" "perm1" "user-alice" =
      (false, sampleDb) ∧
    RBACService.assignPermissionToRole sampleDb "role-admin" "perm1" "user-alice" =
      (true, sampleDb) := by
  constructor <;> decide

/-- C3: the visible results of the graph-layer reads and existence checks
never surface an inactive related entity: every role returned by
`getUserRoles` is active (and an inactive role is never in the result), a true
`hasRole` is witnessed by an edge joined to an active role of the requested
name, and the permission-side queries return exactly rows joined from
assignment edges — the `permissions` table has no active flag, so no inactive
related entity can appear there. -/
theorem graph_reads_active_filter (db : DB)
    (userId roleId roleName permissionName : String) :
    (∀ r ∈ UserRoleRepository.getUserRoles db userId, r.isActive = true) ∧
    (∀ r : Role, r.isActive = false → r ∉ UserRoleRepository.getUserRoles db userId) ∧
    (UserRoleRepository.hasRole db userId roleName = true →
      ∃ ur ∈ db.userRoles, ur.userId = userId ∧
        ∃ r ∈ db.roles, r.id = ur.roleId ∧ r.name = roleName ∧ r.isActive = true) ∧
    (∀ p ∈ RolePermissionRepository.getRolePermissions db roleId,
      ∃ rp ∈ db.rolePermissions, rp.roleId = roleId ∧ p ∈ db.permissions ∧
        p.id = rp.permissionId) ∧
    (RolePermissionRepository.hasPermission db roleId permissionName = true →
      ∃ rp ∈ db.rolePermissions, rp.roleId = roleId ∧
        ∃ p ∈ db.permissions, p.id = rp.permissionId ∧ p.name = permissionName) := by
  refine ⟨fun r hr => getUserRoles_active hr,
    fun r hfalse hr => by simp [getUserRoles_active hr] at hfalse,
    ?_, fun p hp => getRolePermissions_mem hp, ?_⟩
  · intro h
    unfold UserRoleRepository.hasRole at h
    obtain ⟨ur, hur, hcond⟩ := List.any_eq_true.mp h
    simp only [Bool.and_eq_true, beq_iff_eq] at hcond
    obtain ⟨huid, hroles⟩ := hcond
    obtain ⟨r, hr, hcond2⟩ := List.any_eq_true.mp hroles
    simp only [Bool.and_eq_true, beq_iff_eq] at hcond2
    exact ⟨ur, hur, huid, r, hr, hcond2.1.1, hcond2.1.2, hcond2.2⟩
  · intro h
    unfold RolePermissionRepository.hasPermission at h
    obtain ⟨rp, hrp, hcond⟩ := List.any_eq_true.mp h
    simp only [Bool.and_eq_true, beq_iff_eq] at hcond
    obtain ⟨hrid, hperm⟩ := hcond
    obtain ⟨p, hp, hcond2⟩ := List.any_eq_true.mp hperm
    simp only [Bool.and_eq_true, beq_iff_eq] at hcond2
    exact ⟨rp, hrp, hrid, p, hp, hcond2.1, hcond2.2⟩

/-- Witness for C3: in the concrete database the inactive ghost role is
excluded from alice's visible roles, and the true `hasRole` check for `admin`
yields an active joined role. -/
theorem graph_reads_active_filter_witness :
    ghostRole ∉ UserRoleRepository.getUserRoles sampleDb "user-alice" ∧
    (∃ ur ∈ sampleDb.userRoles, ur.userId = "user-alice" ∧
      ∃ r ∈ sampleDb.roles, r.id = ur.roleId ∧ r.name = "admin" ∧ r.isActive = true) :=
  ⟨(graph_reads_active_filter sampleDb "user-alice" "role-admin" "admin"
      "users:read").2.1 ghostRole (by decide),
   (graph_reads_active_filter sampleDb "user-alice" "role-admin" "admin"
      "users:read").2.2.1 (by decide)⟩

/-- C4: credential verification returns the identical `none` outcome in all
three failure cases — unknown username, inactive account, and failed password
comparison — so a caller cannot distinguish them (no error is thrown: the
result type is an optional value). -/
theorem authenticateUser_failures_null (compare : String → String → Bool)
    (cfg : JwtConfig) (now : Nat) (db : DB) (username password : String) :
    (UserRepository.findByUsername db username = none →
      RBACService.authenticateUser compare cfg now db username password = none) ∧
    (∀ u : User, UserRepository.findByUsername db username = some u →
      u.isActive = false →
      RBACService.authenticateUser compare cfg now db username password = none) ∧
    (∀ u : User, UserRepository.findByUsername db username = some u →
      u.isActive = true → compare password u.password = false →
      RBACService.authenticateUser compare cfg now db username password = none) := by
  refine ⟨?_, ?_, ?_⟩
  · intro h
    unfold RBACService.authenticateUser
    rw [h]
  · intro u hu hact
    unfold RBACService.authenticateUser
    rw [hu]
    simp [hact]
  · intro u hu hact hcmp
    unfold RBACService.authenticateUser
    rw [hu]
    simp [hact, hcmp]

/-- Witness for C4: in the concrete database the unknown username `mallory`,
the inactive account `bob`, and a wrong password for the active `alice` all
produce the same `none`. -/
theorem authenticateUser_failures_null_witness :
    RBACService.authenticateUser sampleCompare sampleJwtConfig 0 sampleDb
      "mallory" "pw" = none ∧
    RBACService.authenticateUser sampleCompare sampleJwtConfig 0 sampleDb
      "bob" "pw" = none ∧
    RBACService.authenticateUser sampleCompare sampleJwtConfig 0 sampleDb
      "alice" "wrong" = none :=
  ⟨(authenticateUser_failures_null sampleCompare sampleJwtConfig 0 sampleDb
      "mallory" "pw").1 (by decide),
   (authenticateUser_failures_null sampleCompare sampleJwtConfig 0 sampleDb
      "bob" "pw").2.1 bob (by decide) (by decide),
   (authenticateUser_failures_null sampleCompare sampleJwtConfig 0 sampleDb
      "alice" "wrong").2.2 alice (by decide) (by decide) (by decide)⟩

/-- C5: generating a token and verifying it with the same secret before the
TTL elapses returns the embedded claims unchanged together with the issue and
expiry timestamps; verifying after the TTL has elapsed returns the invalid
`none` result. -/
theorem token_roundtrip_and_expiry (cfg : JwtConfig) (claims : JWTClaims)
    (issuedAt now : Nat) :
    (now < issuedAt + cfg.expiresIn →
      RBACService.verifyToken cfg now (RBACService.generateToken cfg issuedAt claims) =
        some (claims, issuedAt, issuedAt + cfg.expiresIn)) ∧
    (issuedAt + cfg.expiresIn ≤ now →
      RBACService.verifyToken cfg now (RBACService.generateToken cfg issuedAt claims) =
        none) := by
  constructor
  · intro h
    unfold RBACService.verifyToken RBACService.generateToken jwtSign jwtVerify
    simp [Nat.not_le.mpr h]
  · intro h
    unfold RBACService.verifyToken RBACService.generateToken jwtSign jwtVerify
    simp [h]

/-- Witness for C5: with a 10-unit TTL, a token issued at time 0 verifies at
time 5 to its embedded claims and is invalid at time 10. -/
theorem token_roundtrip_and_expiry_witness :
    RBACService.verifyToken sampleJwtConfig 5
        (RBACService.generateToken sampleJwtConfig 0 sampleClaims) =
      some (sampleClaims, 0, 10) ∧
    RBACService.verifyToken sampleJwtConfig 10
        (RBACService.generateToken sampleJwtConfig 0 sampleClaims) = none :=
  ⟨(token_roundtrip_and_expiry sampleJwtConfig sampleClaims 0 5).1 (by decide),
   (token_roundtrip_and_expiry sampleJwtConfig sampleClaims 0 10).2 (by decide)⟩

/-- C6: token verification fails closed — a malformed token, a signature that
does not match the configured secret, and an elapsed TTL each yield the
invalid `none` result, and every error thrown by the underlying library
verify is converted to `none` instead of propagating to the caller. -/
theorem verifyToken_fails_closed (cfg : JwtConfig) (now : Nat) :
    (∀ raw : String, RBACService.verifyToken cfg now (.malformed raw) = none) ∧
    (∀ st : SignedToken, st.sig ≠ jwtSig cfg.secret st.claims st.iat st.exp →
      RBACService.verifyToken cfg now (.signed st) = none) ∧
    (∀ st : SignedToken, st.exp ≤ now →
      RBACService.verifyToken cfg now (.signed st) = none) ∧
    (∀ t : Token, ∀ e : JwtError, jwtVerify cfg.secret now t = .error e →
      RBACService.verifyToken cfg now t = none) := by
  refine ⟨fun raw => rfl, ?_, ?_, ?_⟩
  · intro st h
    unfold RBACService.verifyToken jwtVerify
    simp [h]
  · intro st h
    unfold RBACService.verifyToken jwtVerify
    by_cases hsig : st.sig = jwtSig cfg.secret st.claims st.iat st.exp
    · simp [hsig, h]
    · simp [hsig]
  · intro t e h
    unfold RBACService.verifyToken
    rw [h]

/-- Witness for C6: a malformed string, a token signed under a different
secret, and a correctly signed token past its expiry all verify to `none`. -/
theorem verifyToken_fails_closed_witness :
    RBACService.verifyToken sampleJwtConfig 5 (.malformed "garbage") = none ∧
    RBACService.verifyToken sampleJwtConfig 5 (.signed tamperedToken) = none ∧
    RBACService.verifyToken sampleJwtConfig 20 (.signed freshToken) = none :=
  ⟨(verifyToken_fails_closed sampleJwtConfig 5).1 "garbage",
   (verifyToken_fails_closed sampleJwtConfig 5).2.1 tamperedToken (by decide),
   (verifyToken_fails_closed sampleJwtConfig 20).2.2.1 freshToken (by decide)⟩

/-- C7: for an authenticated identity, the admin-or-permission gate passes
exactly when the fixed role name `admin` is in the identity's role set or the
plain permission gate passes; the three spec scenarios for the check
(resource `sensitive`, action `read`) are instances. -/
theorem requireAdminOrPermission_spec (check : PermissionCheck) (u : JWTClaims) :
    (RBACMiddleware.requireAdminOrPermission check (some u) = .allow ↔
      u.roles.contains "admin" = true ∨
        RBACMiddleware.requirePermission check (some u) = .allow) ∧
    RBACMiddleware.requireAdminOrPermission ⟨"sensitive", "read"⟩
      (some adminIdentity) = .allow ∧
    RBACMiddleware.requireAdminOrPermission ⟨"sensitive", "read"⟩
      (some readerIdentity) = .allow ∧
    RBACMiddleware.requireAdminOrPermission ⟨"sensitive", "read"⟩
      (some plainIdentity) = .forbidden := by
  refine ⟨?_, by decide, by decide, by decide⟩
  unfold RBACMiddleware.requireAdminOrPermission RBACMiddleware.requirePermission
  by_cases hA : u.roles.contains "admin" <;>
    by_cases hP : u.permissions.any (permMatches check) <;>
      simp [hA, hP]

/-- C8: every gate decision function resolves to an outcome of the
three-valued type (never an exception): with no authenticated identity the
outcome is the unauthenticated kind, and with an identity present it is allow
or forbidden according to the grant — the unauthenticated and forbidden kinds
are never conflated. -/
theorem gate_failure_classification (db : DB) (roleName : String)
    (check : PermissionCheck) (roleNames : List String)
    (checks : List PermissionCheck) (u : JWTClaims) :
    AuthMiddleware.requireRole db roleName none = .unauthenticated ∧
    AuthMiddleware.requirePermission db check none = .unauthenticated ∧
    AuthMiddleware.requireAnyRole db roleNames none = .unauthenticated ∧
    AuthMiddleware.requireAnyPermission db checks none = .unauthenticated ∧
    RBACMiddleware.requireRole roleName none = .unauthenticated ∧
    RBACMiddleware.requirePermission check none = .unauthenticated ∧
    RBACMiddleware.requireAnyRole roleNames none = .unauthenticated ∧
    RBACMiddleware.requireAnyPermission checks none = .unauthenticated ∧
    RBACMiddleware.requireAdminOrPermission check none = .unauthenticated ∧
    AuthMiddleware.requireRole db roleName (some u) =
      (if RBACService.hasRole db u.userId roleName then .allow else .forbidden) ∧
    AuthMiddleware.requirePermission db check (some u) =
      (if RBACService.hasPermission db u.userId check then .allow else .forbidden) ∧
    AuthMiddleware.requireAnyRole db roleNames (some u) =
      (if roleNames.any (fun n => RBACService.hasRole db u.userId n) then .allow
       else .forbidden) ∧
    AuthMiddleware.requireAnyPermission db checks (some u) =
      (if checks.any (fun c => RBACService.hasPermission db u.userId c) then .allow
       else .forbidden) ∧
    RBACMiddleware.requireRole roleName (some u) =
      (if u.roles.contains roleName then .allow else .forbidden) ∧
    RBACMiddleware.requirePermission check (some u) =
      (if u.permissions.any (permMatches check) then .allow else .forbidden) ∧
    RBACMiddleware.requireAnyRole roleNames (some u) =
      (if roleNames.any (fun n => u.roles.contains n) then .allow else .forbidden) ∧
    RBACMiddleware.requireAnyPermission checks (some u) =
      (if checks.any (fun c => u.permissions.any (permMatches c)) then .allow
       else .forbidden) ∧
    RBACMiddleware.requireAdminOrPermission check (some u) =
      (if u.roles.contains "admin" || u.permissions.any (permMatches check) then
        GateOutcome.allow
       else .forbidden) := by
  refine ⟨rfl, rfl, rfl, rfl, rfl, rfl, rfl, rfl, rfl, rfl, rfl, ?_, ?_, rfl, rfl,
    rfl, rfl, ?_⟩
  · unfold AuthMiddleware.requireAnyRole
    simp [List.any_map, Function.comp]
  · unfold AuthMiddleware.requireAnyPermission
    simp [List.any_map, Function.comp]
  · unfold RBACMiddleware.requireAdminOrPermission
    by_cases hA : u.roles.contains "admin" <;>
      by_cases hP : u.permissions.any (permMatches check) <;> simp [hA, hP]

/-- C9: the live-mode gate decisions depend only on the identity's userId and
the database state: two identities agreeing on userId but carrying arbitrary
token-embedded role and permission snapshots receive identical decisions. -/
theorem gate_live_mode_snapshot_independent (db : DB) (roleName : String)
    (check : PermissionCheck) (u1 u2 : JWTClaims) (h : u1.userId = u2.userId) :
    AuthMiddleware.requireRole db roleName (some u1) =
      AuthMiddleware.requireRole db roleName (some u2) ∧
    AuthMiddleware.requirePermission db check (some u1) =
      AuthMiddleware.requirePermission db check (some u2) := by
  refine ⟨?_, ?_⟩ <;>
    simp only [AuthMiddleware.requireRole, AuthMiddleware.requirePermission, h]

/-- Witness for C9: the identity carrying the admin role snapshot and the one
carrying an empty snapshot share alice's userId and receive identical
decisions against the concrete database. -/
theorem gate_live_mode_snapshot_independent_witness :
    adminIdentity.userId = snapshotIdentity.userId ∧
    AuthMiddleware.requireRole sampleDb "admin" (some adminIdentity) =
      AuthMiddleware.requireRole sampleDb "admin" (some snapshotIdentity) ∧
    AuthMiddleware.requirePermission sampleDb ⟨"users", "read"⟩ (some adminIdentity) =
      AuthMiddleware.requirePermission sampleDb ⟨"users", "read"⟩
        (some snapshotIdentity) :=
  ⟨rfl,
   (gate_live_mode_snapshot_independent sampleDb "admin" ⟨"users", "read"⟩
      adminIdentity snapshotIdentity rfl).1,
   (gate_live_mode_snapshot_independent sampleDb "admin" ⟨"users", "read"⟩
      adminIdentity snapshotIdentity rfl).2⟩

/-- C10: an empty any-of disjunction is vacuously false: with an authenticated
identity the empty-list gates of both layers deny with the forbidden kind, and
for every request context (identity or not) the outcome is never allow. -/
theorem requireAny_empty_denies (db : DB) (u : JWTClaims) (user : Option JWTClaims) :
    AuthMiddleware.requireAnyRole db [] (some u) = .forbidden ∧
    AuthMiddleware.requireAnyPermission db [] (some u) = .forbidden ∧
    RBACMiddleware.requireAnyRole [] (some u) = .forbidden ∧
    RBACMiddleware.requireAnyPermission [] (some u) = .forbidden ∧
    (AuthMiddleware.requireAnyRole db [] user = .unauthenticated ∨
      AuthMiddleware.requireAnyRole db [] user = .forbidden) ∧
    (AuthMiddleware.requireAnyPermission db [] user = .unauthenticated ∨
      AuthMiddleware.requireAnyPermission db [] user = .forbidden) ∧
    (RBACMiddleware.requireAnyRole [] user = .unauthenticated ∨
      RBACMiddleware.requireAnyRole [] user = .forbidden) ∧
    (RBACMiddleware.requireAnyPermission [] user = .unauthenticated ∨
      RBACMiddleware.requireAnyPermission [] user = .forbidden) := by
  refine ⟨rfl, rfl, rfl, rfl, ?_, ?_, ?_, ?_⟩ <;>
    cases user with
    | none => exact Or.inl rfl
    | some v => exact Or.inr rfl

end RBAC
